import Mathlib

/-!
Shallow embedding of `src/lib/osml/osml_authorizer/lambda/lambda_function.py`,
the REST API request authorizer of osml-cdk-constructs, together with
theorems settling the specification claims about it.

Modelling conventions:
* Python exceptions that escape a function are modelled with `Except Fault`;
  a function that cannot fault returns its value directly.
* `jwt` / `requests` library behaviour that the authorizer observes is
  modelled faithfully at the call boundary: the network is a total function
  from URL to response carried by `NetEnv`, the token wire format
  (base64url/JSON decoding) and RS256 signature checking are abstract
  components of `NetEnv`, while the library's control flow that the claims
  depend on (algorithm allow-list, claim validation, key-id selection,
  key-set caching inside `PyJWKClient`) is embedded concretely.
* Machine time is an `Int` argument `now`; network fetches are counted in an
  explicit `Counters` state threaded through the pipeline.
-/

namespace OsmlAuthorizer

/-- Python `str.lower()` (ASCII-faithful; header names in the claims are
ASCII).  Defined over the character list so that it computes by kernel
reduction, unlike `String.map`. -/
def lowerStr (s : String) : String := String.mk (s.data.map Char.toLower)

/-- Characters of the regex class `[A-Za-z0-9-_]` (the class is ASCII-only,
matching Lean's `Char.isAlpha` / `Char.isDigit`). -/
def isUrlSafe (c : Char) : Bool :=
  c.isAlpha || c.isDigit || c == '-' || c == '_'

/-- Characters accepted for the regex escape `\s` in the `Bearer\s` group.
Python also counts a few rare control and Unicode spaces; the inputs the
claims quantify over use the ordinary ASCII whitespace modelled here. -/
def isReSpace (c : Char) : Bool :=
  c == ' ' || c == '\t' || c == '\n' || c == '\r' || c == '\x0b' || c == '\x0c'

/-- Core of `re.match` for `([A-Za-z0-9-_]+\.[A-Za-z0-9-_]+\.[A-Za-z0-9-_]+)`
anchored at the head of `cs`: three nonempty runs of URL-safe characters
separated by single dots.  Because `.` is not in the character class, greedy
matching with backtracking coincides with maximal munch, so `List.span`
models each `+` exactly; the regex is unanchored at the right, so trailing
characters are ignored. -/
def matchCore (cs : List Char) : Option (List Char) :=
  let p1 := cs.span isUrlSafe
  if p1.1.isEmpty then none
  else
    match p1.2 with
    | '.' :: r1 =>
      let p2 := r1.span isUrlSafe
      if p2.1.isEmpty then none
      else
        match p2.2 with
        | '.' :: r2 =>
          let p3 := r2.span isUrlSafe
          if p3.1.isEmpty then none
          else some (p1.1 ++ '.' :: p2.1 ++ '.' :: p3.1)
        | _ => none
    | _ => none

/-- The optional group `(?:Bearer\s)?`: consume a literal `Bearer` followed by
one whitespace character at the head of the input, when present. -/
def stripBearer (cs : List Char) : Option (List Char) :=
  if cs.take 6 = ['B', 'e', 'a', 'r', 'e', 'r'] then
    match cs.drop 6 with
    | c :: rest => if isReSpace c then some rest else none
    | [] => none
  else none

/-- Python `re.match(r'(?:Bearer\s)?([A-Za-z0-9-_]+\.[A-Za-z0-9-_]+\.[A-Za-z0-9-_]+)', v)`
returning `group(1)`: first try the optional prefix and the capture after it;
on failure of the capture, backtrack to matching the capture at position 0. -/
def reMatchAuthL (cs : List Char) : Option (List Char) :=
  match stripBearer cs with
  | some rest =>
    match matchCore rest with
    | some g => some g
    | none => matchCore cs
  | none => matchCore cs

/-- String-level wrapper of `reMatchAuthL`. -/
def reMatchAuth (v : String) : Option String :=
  (reMatchAuthL v.data).map (fun g => String.mk g)

/-- Lambda `event`: the attributes the handler reads — the header mapping
(`event["headers"]`, insertion-ordered as a Python dict) and
`event["methodArn"]`. -/
structure Event where
  headers : List (String × String)
  methodArn : String

/-- Exceptions that can escape the handler. -/
inductive Fault where
  | valueError (msg : String)
  | keyError (key : String)
  | jsonDecodeError
deriving DecidableEq

/-- Lookup modelling `{ k.lower(): v for k, v in event["headers"].items() }[key]`:
a later entry whose lowercased name collides overwrites an earlier one, as in
a Python dict comprehension; `none` when the key is absent. -/
def dictGet (hs : List (String × String)) (key : String) : Option String :=
  hs.foldl (fun acc p => if lowerStr p.1 = key then some p.2 else acc) none

/-- Model of `get_id_token(event)`: normalize header names to lowercase, look up
`authorization`, and apply the extraction regex; raises `ValueError` when the
header is absent or does not match. -/
def get_id_token (event : Event) : Except Fault String :=
  match dictGet event.headers "authorization" with
  | some v =>
    match reMatchAuth v with
    | some tok => Except.ok tok
    | none => Except.error (Fault.valueError "Invalid authorization header format.")
  | none => Except.error (Fault.valueError "Missing authorization token.")

/-- Decoded JWT payload restricted to the claims the authorizer inspects,
plus the names of any further payload entries (`extra`), kept so that Python
dict truthiness (`if jwt_data := ...`) can be modelled. -/
structure Claims where
  sub : Option String
  iss : Option String
  aud : Option String
  exp : Option Int
  nbf : Option Int
  iat : Option Int
  extra : List String
deriving DecidableEq

/-- Truthiness of the payload dict: a Python dict is falsy iff it is empty. -/
def Claims.isEmptyDict (c : Claims) : Bool :=
  c.sub.isNone && c.iss.isNone && c.aud.isNone && c.exp.isNone &&
    c.nbf.isNone && c.iat.isNone && c.extra.isEmpty

/-- The jwt library's view of a compact token string: unverified header
fields (`alg`, `kid`) and the payload. -/
structure TokenRepr where
  alg : Option String
  kid : Option String
  payload : Claims
deriving DecidableEq

/-- One member of a JWK set: key identifier and opaque key material. -/
structure Jwk where
  kid : String
  key : String
deriving DecidableEq

/-- A `requests` response as the authorizer observes it: the status code and
the result of `resp.json()` (`none` models a body that is not parseable JSON,
on which `resp.json()` raises). -/
structure HttpResponse where
  status_code : Int
  json : Option (List (String × String))

/-- External world: crypto support flag, the HTTP GET boundary, the JWK set
served at each URI, and the jwt library's token parsing and RS256 signature
verification (abstract: parsing of the wire format and RSA arithmetic are
outside the authorizer). -/
structure NetEnv where
  hasCrypto : Bool
  get : String → HttpResponse
  jwksSet : String → List Jwk
  parseToken : String → Option TokenRepr
  sigOk : String → String → Bool

/-- Counters of network fetches performed, threaded through the pipeline. -/
structure Counters where
  discoveryFetches : Nat
  jwksFetches : Nat
deriving DecidableEq

/-- Model of `jwt.PyJWKClient(uri, cache_jwk_set=True, lifespan=360, ...)`: the key-set
URI, the cache lifespan, and the instance's key-set cache, which starts empty
on construction. -/
structure PyJWKClient where
  uri : String
  lifespan : Int
  jwk_set_cache : Option (List Jwk × Int)

/-- Model of `PyJWKClient.get_jwk_set`: serve the cached key set while it is fresh
(`fetchedAt + lifespan` not yet passed), otherwise fetch it from `uri` and
cache it, counting the fetch. -/
def PyJWKClient.get_jwk_set (c : PyJWKClient) (net : NetEnv) (now : Int)
    (ctr : Counters) : List Jwk × PyJWKClient × Counters :=
  let fetched :=
    (net.jwksSet c.uri,
     { c with jwk_set_cache := some (net.jwksSet c.uri, now) },
     { ctr with jwksFetches := ctr.jwksFetches + 1 })
  match c.jwk_set_cache with
  | some (ks, t) => if t + c.lifespan < now then fetched else (ks, c, ctr)
  | none => fetched

/-- Model of `PyJWKClient.get_signing_key_from_jwt`: parse the token's unverified
header, fetch (or serve from cache) the key set, and select the key whose
`kid` matches the header's; `none` models the `DecodeError` /
`PyJWKClientError` cases, both subclasses of `PyJWTError`. -/
def PyJWKClient.get_signing_key_from_jwt (c : PyJWKClient) (net : NetEnv)
    (id_token : String) (now : Int) (ctr : Counters) :
    Option String × PyJWKClient × Counters :=
  match net.parseToken id_token with
  | none => (none, c, ctr)
  | some t =>
    let r := c.get_jwk_set net now ctr
    match r.1.find? (fun k => t.kid == some k.kid) with
    | some k => (some k.key, r.2.1, r.2.2)
    | none => (none, r.2.1, r.2.2)

/-- Model of `jwt.decode(id_token, key, algorithms=["RS256"], issuer=..., audience=...,
options={verify everything})`: parse, enforce the algorithm allow-list, check
the signature, then validate claims — `iat` and `nbf` must not be in the
future and `exp` not in the past when present (leeway 0), while `iss` and
`aud` are required and must equal the configured values (both are passed, so
PyJWT raises `MissingRequiredClaimError` when either is absent).  `none`
models every `PyJWTError` outcome. -/
def jwtDecode (net : NetEnv) (id_token : String) (key : String)
    (algorithms : List String) (issuer : String) (audience : String)
    (now : Int) : Option Claims :=
  match net.parseToken id_token with
  | none => none
  | some t =>
    match t.alg with
    | none => none
    | some a =>
      if a ∈ algorithms then
        if net.sigOk key id_token then
          let p := t.payload
          if p.iat.all (fun i => decide (i ≤ now)) &&
             p.nbf.all (fun n => decide (n ≤ now)) &&
             p.exp.all (fun e => decide (now < e)) &&
             p.iss == some issuer &&
             p.aud == some audience
          then some p else none
        else none
      else none

/-- Model of `id_token_is_valid(id_token=..., audience=..., authority=...)`: require
crypto support, GET the discovery document (counted), require status 200,
parse the body (`resp.json()` raising on non-JSON is OUTSIDE the `try`, so it
escapes as a fault), then inside the `try` read `oidc_metadata["jwks_uri"]`
(a `KeyError` is not a `PyJWTError`, so it too escapes), construct a FRESH
`PyJWKClient` with an empty cache, resolve the signing key and decode.
`Except.ok none` models `return False`; `Except.ok (some data)` models
returning the decoded dict.  `cert_path` (the `SSL_CERT_FILE` bundle) only
configures TLS trust and has no further observable effect modelled here. -/
def id_token_is_valid (net : NetEnv) (id_token : String) (audience : String)
    (authority : String) (cert_path : Option String) (now : Int)
    (ctr : Counters) : Except Fault (Option Claims) × Counters :=
  if !net.hasCrypto then (Except.ok none, ctr)
  else
    let resp := net.get (authority ++ "/.well-known/openid-configuration")
    let ctr1 : Counters := { ctr with discoveryFetches := ctr.discoveryFetches + 1 }
    if resp.status_code ≠ 200 then (Except.ok none, ctr1)
    else
      match resp.json with
      | none => (Except.error Fault.jsonDecodeError, ctr1)
      | some oidc_metadata =>
        match oidc_metadata.lookup "jwks_uri" with
        | none => (Except.error (Fault.keyError "jwks_uri"), ctr1)
        | some uri =>
          let client : PyJWKClient := { uri := uri, lifespan := 360, jwk_set_cache := none }
          match client.get_signing_key_from_jwt net id_token now ctr1 with
          | (none, _, ctr2) => (Except.ok none, ctr2)
          | (some key, _, ctr2) =>
            (Except.ok (jwtDecode net id_token key ["RS256"] authority audience now), ctr2)

/-- Process environment: `os.environ.get("AUTHORITY", "")`,
`os.environ.get("AUDIENCE", "")` and `os.getenv("SSL_CERT_FILE", None)`. -/
structure Env where
  AUTHORITY : Option String
  AUDIENCE : Option String
  SSL_CERT_FILE : Option String

/-- One element of the policy document's `Statement` list. -/
structure PolicyStatement where
  Action : String
  Effect : String
  Resource : String
deriving DecidableEq

/-- The `policyDocument` object. -/
structure PolicyDocument where
  Version : String
  Statement : List PolicyStatement
deriving DecidableEq

/-- The handler's return value; `context` is the optional key added by
`policy["context"] = ...` after `generate_policy` builds the dict. -/
structure Policy where
  principalId : String
  policyDocument : PolicyDocument
  context : Option (List (String × String))
deriving DecidableEq

/-- Model of `generate_policy(effect=..., resource=..., username=...)`; the Python
default for `username` is the literal string `"username"`, passed explicitly
at the call sites below. -/
def generate_policy (effect : String) (resource : String) (username : String) : Policy :=
  { principalId := username,
    policyDocument :=
      { Version := "2012-10-17",
        Statement := [{ Action := "execute-api:Invoke", Effect := effect, Resource := resource }] },
    context := none }

/-- Model of `lambda_handler(event, context)`: extract the token (an uncaught
`ValueError` from `get_id_token` escapes), return Deny for a falsy token,
validate, and on a truthy decoded dict build the Allow policy from
`jwt_data["sub"]` (a `KeyError` when `sub` is absent escapes) and attach the
`context` map; otherwise Deny with the default principal. -/
def lambda_handler (event : Event) (env : Env) (net : NetEnv) (now : Int)
    (ctr : Counters) : Except Fault Policy × Counters :=
  match get_id_token event with
  | Except.error e => (Except.error e, ctr)
  | Except.ok id_token =>
    if id_token = "" then
      (Except.ok (generate_policy "Deny" event.methodArn "username"), ctr)
    else
      let authority := env.AUTHORITY.getD ""
      let audience := env.AUDIENCE.getD ""
      match id_token_is_valid net id_token audience authority env.SSL_CERT_FILE now ctr with
      | (Except.error f, ctr2) => (Except.error f, ctr2)
      | (Except.ok r, ctr2) =>
        match r with
        | some jwt_data =>
          if jwt_data.isEmptyDict then
            (Except.ok (generate_policy "Deny" event.methodArn "username"), ctr2)
          else
            match jwt_data.sub with
            | some s =>
              let policy := generate_policy "Allow" event.methodArn s
              (Except.ok { policy with context := some [("username", s)] }, ctr2)
            | none => (Except.error (Fault.keyError "sub"), ctr2)
        | none => (Except.ok (generate_policy "Deny" event.methodArn "username"), ctr2)

/-! ### Concrete scenarios used by witnesses and counterexample evaluations -/

deriving instance DecidableEq for Except

/-- Reference authority URL for the concrete scenarios. -/
def vAuthority : String := "https://idp.example.com"

/-- Key-set URI advertised by the discovery document in the scenarios. -/
def vJwksUri : String := "https://idp.example.com/jwks"

/-- A fully valid payload: subject `user-123`, matching issuer and audience,
`exp` in the future and `nbf`/`iat` in the past relative to `now = 10`. -/
def vPayload : Claims :=
  ⟨some "user-123", some vAuthority, some "api-audience", some 1000, some 0, some 0, []⟩

/-- A well-signed RS256 token carrying `vPayload` under key id `kid-1`. -/
def vToken : TokenRepr := ⟨some "RS256", some "kid-1", vPayload⟩

/-- World in which the authority serves a well-formed discovery document and
a key set containing `kid-1`, and the string `aaa.bbb.ccc` parses to `vToken`
with a signature valid under that key. -/
def vNet : NetEnv :=
  { hasCrypto := true
    get := fun u =>
      if u = vAuthority ++ "/.well-known/openid-configuration" then
        ⟨200, some [("jwks_uri", vJwksUri)]⟩
      else ⟨404, none⟩
    jwksSet := fun u => if u = vJwksUri then [⟨"kid-1", "key-1"⟩] else []
    parseToken := fun s => if s = "aaa.bbb.ccc" then some vToken else none
    sigOk := fun k s => k == "key-1" && s == "aaa.bbb.ccc" }

/-- Process environment matching `vNet`. -/
def vEnv : Env := ⟨some vAuthority, some "api-audience", none⟩

/-- Request carrying the valid token with a `Bearer` prefix. -/
def vEvent : Event := ⟨[("Authorization", "Bearer aaa.bbb.ccc")], "arn:resource"⟩

/-- Same world but the token declares algorithm `HS256`. -/
def hsToken : TokenRepr := ⟨some "HS256", some "kid-1", vPayload⟩

/-- World serving `hsToken` for the same token string. -/
def hsNet : NetEnv :=
  { vNet with parseToken := fun s => if s = "aaa.bbb.ccc" then some hsToken else none }

/-- Valid payload except that the `sub` claim is absent. -/
def noSubPayload : Claims :=
  ⟨none, some vAuthority, some "api-audience", some 1000, some 0, some 0, []⟩

/-- Token carrying `noSubPayload`. -/
def noSubToken : TokenRepr := ⟨some "RS256", some "kid-1", noSubPayload⟩

/-- World serving `noSubToken` for the same token string. -/
def noSubNet : NetEnv :=
  { vNet with parseToken := fun s => if s = "aaa.bbb.ccc" then some noSubToken else none }

/-- World whose discovery endpoint answers 200 with a body that is not JSON. -/
def badJsonNet : NetEnv := { vNet with get := fun _ => ⟨200, none⟩ }

/-- World whose discovery endpoint answers 200 with JSON lacking `jwks_uri`. -/
def noUriNet : NetEnv := { vNet with get := fun _ => ⟨200, some [("issuer", vAuthority)]⟩ }

/-- Environment pointing at an authority `vNet` answers with 404. -/
def otherEnv : Env := ⟨some "https://other.example.com", some "api-audience", none⟩

/-- World without crypto support: every validation returns `False`. -/
def noCryptoNet : NetEnv := { vNet with hasCrypto := false }

/-- Request with headers but no `authorization` entry in any case variant. -/
def noAuthEvent : Event := ⟨[("Content-Type", "application/json")], "arn:resource"⟩

/-- Request whose authorization header does not match the token pattern. -/
def badAuthEvent : Event := ⟨[("Authorization", "Not a token")], "arn:resource"⟩

/-- Request whose header value continues after the three token segments. -/
def trailingEvent : Event := ⟨[("authorization", "Bearer aaa.bbb.ccc.ddd")], "arn:resource"⟩

/-! ### Helper lemmas -/

/-- Folding the header-dict lookup over entries that never match leaves the
accumulator unchanged. -/
theorem foldl_lookup_const (key : String) :
    ∀ (l : List (String × String)) (acc : Option String),
      (∀ p ∈ l, lowerStr p.1 ≠ key) →
      l.foldl (fun acc p => if lowerStr p.1 = key then some p.2 else acc) acc = acc := by
  intro l
  induction l with
  | nil => intro acc _; rfl
  | cons a t ih =>
    intro acc h
    have ha : lowerStr a.1 ≠ key := h a (List.mem_cons_self a t)
    simp only [List.foldl_cons, if_neg ha]
    exact ih acc fun p hp => h p (List.mem_cons_of_mem a hp)

/-- A header mapping with no `authorization`-equivalent entry yields no value. -/
theorem dictGet_eq_none {hs : List (String × String)} {key : String}
    (h : ∀ p ∈ hs, lowerStr p.1 ≠ key) : dictGet hs key = none :=
  foldl_lookup_const key hs none h

/-- A successful match of the token pattern is a nonempty character list. -/
theorem matchCore_ne_nil {cs g : List Char} (h : matchCore cs = some g) : g ≠ [] := by
  intro hg
  subst hg
  simp only [matchCore] at h
  split at h
  · exact Option.noConfusion h
  · split at h
    · split at h
      · exact Option.noConfusion h
      · split at h
        · split at h
          · exact Option.noConfusion h
          · simp at h
        · exact Option.noConfusion h
    · exact Option.noConfusion h

/-- The extracted token string is never empty. -/
theorem reMatchAuth_ne_empty {v tok : String} (h : reMatchAuth v = some tok) : tok ≠ "" := by
  unfold reMatchAuth at h
  cases hL : reMatchAuthL v.data with
  | none => rw [hL] at h; exact absurd h (by simp)
  | some g =>
    rw [hL] at h
    simp only [Option.map_some'] at h
    have hg : g ≠ [] := by
      unfold reMatchAuthL at hL
      split at hL
      · split at hL
        · rename_i heq
          injection hL with hL
          subst hL
          exact matchCore_ne_nil heq
        · exact matchCore_ne_nil hL
      · exact matchCore_ne_nil hL
    intro hc
    injection h with h
    rw [hc] at h
    exact hg (by simpa using congrArg String.data h)

/-- A `takeWhile` over an append stops exactly at the first element of the
suffix when the whole first part satisfies `p` and the suffix head fails it. -/
theorem takeWhile_append_eq (p : Char → Bool) (l1 l2 : List Char)
    (h1 : ∀ x ∈ l1, p x = true) (h2 : ∀ x, l2.head? = some x → p x = false) :
    (l1 ++ l2).takeWhile p = l1 := by
  induction l1 with
  | nil =>
    cases l2 with
    | nil => rfl
    | cons y t =>
      have hy := h2 y rfl
      simp [List.takeWhile_cons, hy]
  | cons a t ih =>
    have ha := h1 a (List.mem_cons_self a t)
    simp only [List.cons_append, List.takeWhile_cons, ha, if_true]
    rw [ih fun x hx => h1 x (List.mem_cons_of_mem a hx)]

/-- A `dropWhile` over the same split returns exactly the suffix. -/
theorem dropWhile_append_eq (p : Char → Bool) (l1 l2 : List Char)
    (h1 : ∀ x ∈ l1, p x = true) (h2 : ∀ x, l2.head? = some x → p x = false) :
    (l1 ++ l2).dropWhile p = l2 := by
  induction l1 with
  | nil =>
    cases l2 with
    | nil => rfl
    | cons y t =>
      have hy := h2 y rfl
      simp [List.dropWhile_cons, hy]
  | cons a t ih =>
    have ha := h1 a (List.mem_cons_self a t)
    simp only [List.cons_append, List.dropWhile_cons, ha, if_true]
    exact ih fun x hx => h1 x (List.mem_cons_of_mem a hx)

/-- The `span` of an append splits exactly at the boundary where `p` first fails. -/
theorem span_append_eq (p : Char → Bool) (l1 l2 : List Char)
    (h1 : ∀ x ∈ l1, p x = true) (h2 : ∀ x, l2.head? = some x → p x = false) :
    (l1 ++ l2).span p = (l1, l2) := by
  rw [List.span_eq_take_drop, takeWhile_append_eq p l1 l2 h1 h2,
    dropWhile_append_eq p l1 l2 h1 h2]

/-- A list starting with a dot starts with a non-URL-safe character. -/
theorem isUrlSafe_head_dot (X : List Char) :
    ∀ x, ('.' :: X).head? = some x → isUrlSafe x = false := by
  intro x hx
  simp only [List.head?_cons, Option.some.injEq] at hx
  subst hx
  rfl

/-- A URL-safe character is not regex whitespace. -/
theorem isReSpace_eq_false_of_isUrlSafe {c : Char} (h : isUrlSafe c = true) :
    isReSpace c = false := by
  by_contra hc
  rw [Bool.not_eq_false] at hc
  simp only [isReSpace, Bool.or_eq_true, beq_iff_eq] at hc
  rcases hc with ((((rfl | rfl) | rfl) | rfl) | rfl) | rfl <;> simp [isUrlSafe] at h

/-- The optional group consumes a literal `Bearer` + space prefix. -/
theorem stripBearer_bearer (cs : List Char) :
    stripBearer ('B' :: 'e' :: 'a' :: 'r' :: 'e' :: 'r' :: ' ' :: cs) = some cs := rfl

/-- The optional group cannot fire on input that starts with a URL-safe run
followed by a dot: either the run diverges from the literal `Bearer` within
the first six characters, or the character after `Bearer` is a dot or another
URL-safe character, never whitespace. -/
theorem stripBearer_none_of_urlSafe (l1 l2 : List Char)
    (h1 : ∀ x ∈ l1, isUrlSafe x = true) :
    stripBearer (l1 ++ '.' :: l2) = none := by
  rcases l1 with _ | ⟨a1, _ | ⟨a2, _ | ⟨a3, _ | ⟨a4, _ | ⟨a5, _ | ⟨a6, t⟩⟩⟩⟩⟩⟩
  · simp [stripBearer]
  · simp [stripBearer]
  · simp [stripBearer]
  · simp [stripBearer]
  · simp [stripBearer]
  · simp [stripBearer]
  · by_cases hC : List.take 6 ((a1 :: a2 :: a3 :: a4 :: a5 :: a6 :: t) ++ '.' :: l2) =
        ['B', 'e', 'a', 'r', 'e', 'r']
    · rw [stripBearer, if_pos hC]
      have hdrop : List.drop 6 ((a1 :: a2 :: a3 :: a4 :: a5 :: a6 :: t) ++ '.' :: l2) =
          t ++ '.' :: l2 := by simp
      rw [hdrop]
      cases t with
      | nil =>
        simp only [List.nil_append]
        rw [if_neg]
        simp [isReSpace]
      | cons b bt =>
        simp only [List.cons_append]
        rw [if_neg]
        have hb : isUrlSafe b = true := h1 b (by simp)
        simp [isReSpace_eq_false_of_isUrlSafe hb]
    · rw [stripBearer, if_neg hC]

/-- The token-pattern core on a three-segment body followed by arbitrary
non-URL-safe-headed trailing characters captures exactly the three segments. -/
theorem matchCore_eq_of (s1 s2 s3 rest : List Char)
    (h1 : s1 ≠ []) (h1u : ∀ x ∈ s1, isUrlSafe x = true)
    (h2 : s2 ≠ []) (h2u : ∀ x ∈ s2, isUrlSafe x = true)
    (h3 : s3 ≠ []) (h3u : ∀ x ∈ s3, isUrlSafe x = true)
    (hrest : ∀ x, rest.head? = some x → isUrlSafe x = false) :
    matchCore (s1 ++ '.' :: (s2 ++ '.' :: (s3 ++ rest))) =
      some (s1 ++ '.' :: (s2 ++ '.' :: s3)) := by
  have sp1 := span_append_eq isUrlSafe s1 ('.' :: (s2 ++ '.' :: (s3 ++ rest))) h1u
    (isUrlSafe_head_dot _)
  have sp2 := span_append_eq isUrlSafe s2 ('.' :: (s3 ++ rest)) h2u (isUrlSafe_head_dot _)
  have sp3 := span_append_eq isUrlSafe s3 rest h3u hrest
  simp only [matchCore, sp1, sp2, sp3]
  simp [List.isEmpty_iff, h1, h2, h3]

/-- The full extraction regex on an optionally `Bearer `-prefixed three-segment
body with trailing characters returns the three leading segments. -/
theorem reMatchAuthL_eq_of (s1 s2 s3 rest : List Char) (withBearer : Bool)
    (h1 : s1 ≠ []) (h1u : ∀ x ∈ s1, isUrlSafe x = true)
    (h2 : s2 ≠ []) (h2u : ∀ x ∈ s2, isUrlSafe x = true)
    (h3 : s3 ≠ []) (h3u : ∀ x ∈ s3, isUrlSafe x = true)
    (hrest : ∀ x, rest.head? = some x → isUrlSafe x = false) :
    reMatchAuthL (cond withBearer ['B', 'e', 'a', 'r', 'e', 'r', ' '] [] ++
        (s1 ++ '.' :: (s2 ++ '.' :: (s3 ++ rest)))) =
      some (s1 ++ '.' :: (s2 ++ '.' :: s3)) := by
  have hm := matchCore_eq_of s1 s2 s3 rest h1 h1u h2 h2u h3 h3u hrest
  cases withBearer with
  | false =>
    simp only [Bool.cond_false, List.nil_append]
    rw [reMatchAuthL, stripBearer_none_of_urlSafe s1 _ h1u]
    simp only [hm]
  | true =>
    simp only [Bool.cond_true, List.cons_append, List.nil_append]
    rw [reMatchAuthL, stripBearer_bearer]
    simp only [hm]

/-- Structure projection of `String.mk`, for rewriting. -/
theorem stringData_mk (l : List Char) : (String.mk l).data = l := rfl

/-- When crypto is available, discovery answers 200 with a parseable body
carrying a `jwks_uri`, the token parses, and its key id is found in the
served key set, `id_token_is_valid` returns exactly the result of
`jwt.decode` under that key, after one discovery fetch and one key-set fetch
(the `PyJWKClient` is freshly constructed, so its cache is always empty). -/
theorem id_token_is_valid_resolved (net : NetEnv) (id_token audience authority : String)
    (cert_path : Option String) (now : Int) (ctr : Counters)
    (meta : List (String × String)) (uri : String) (t : TokenRepr) (k : Jwk)
    (hcrypto : net.hasCrypto = true)
    (hresp : net.get (authority ++ "/.well-known/openid-configuration") = ⟨200, some meta⟩)
    (huri : meta.lookup "jwks_uri" = some uri)
    (hparse : net.parseToken id_token = some t)
    (hfind : (net.jwksSet uri).find? (fun j => t.kid == some j.kid) = some k) :
    id_token_is_valid net id_token audience authority cert_path now ctr =
      (Except.ok (jwtDecode net id_token k.key ["RS256"] authority audience now),
       ⟨ctr.discoveryFetches + 1, ctr.jwksFetches + 1⟩) := by
  simp only [id_token_is_valid, hcrypto, Bool.not_true, Bool.false_eq_true, if_false, hresp,
    PyJWKClient.get_signing_key_from_jwt, PyJWKClient.get_jwk_set, hparse, huri, hfind]
  simp

/-- C1: the spec claims that a request with no `authorization` header in any
case variant yields a well-formed Deny decision and never a fault; in the
code `get_id_token` raises `ValueError("Missing authorization token.")` and
`lambda_handler` has no handler for it, so the exception escapes as a
transport-level fault (the handler's own `Missing id_token ... Denying
access` branch is unreachable). -/
theorem missing_auth_header_faults (event : Event) (env : Env) (net : NetEnv)
    (now : Int) (ctr : Counters)
    (h : ∀ p ∈ event.headers, lowerStr p.1 ≠ "authorization") :
    lambda_handler event env net now ctr =
      (Except.error (Fault.valueError "Missing authorization token."), ctr) := by
  unfold lambda_handler get_id_token
  rw [dictGet_eq_none h]

/-- Witness for C1 at a concrete request whose only header is `Content-Type`. -/
theorem missing_auth_header_faults_wit :
    lambda_handler noAuthEvent vEnv vNet 10 ⟨0, 0⟩ =
      (Except.error (Fault.valueError "Missing authorization token."), ⟨0, 0⟩) :=
  missing_auth_header_faults noAuthEvent vEnv vNet 10 ⟨0, 0⟩ (by decide)

/-- C2: the spec claims a present but non-matching authorization header value
converges to a Deny decision; in the code `get_id_token` raises
`ValueError("Invalid authorization header format.")`, which escapes
`lambda_handler` uncaught as a fault. -/
theorem malformed_auth_header_faults (event : Event) (env : Env) (net : NetEnv)
    (now : Int) (ctr : Counters) (v : String)
    (hv : dictGet event.headers "authorization" = some v)
    (hm : reMatchAuth v = none) :
    lambda_handler event env net now ctr =
      (Except.error (Fault.valueError "Invalid authorization header format."), ctr) := by
  unfold lambda_handler get_id_token
  rw [hv]
  simp only [hm]

/-- Witness for C2 at the concrete header value `Not a token`. -/
theorem malformed_auth_header_faults_wit :
    lambda_handler badAuthEvent vEnv vNet 10 ⟨0, 0⟩ =
      (Except.error (Fault.valueError "Invalid authorization header format."), ⟨0, 0⟩) :=
  malformed_auth_header_faults badAuthEvent vEnv vNet 10 ⟨0, 0⟩ "Not a token"
    (by decide) (by decide)

/-- C3: the spec claims two validations against the same authority within the
360-unit key-set cache lifespan perform at most one discovery fetch and at
most one key-set fetch in total; the code constructs a fresh `PyJWKClient`
(with an empty cache) inside `id_token_is_valid` and issues the discovery GET
unconditionally, so two immediately successive successful validations of the
same token at the same instant perform two discovery fetches and two key-set
fetches. -/
theorem repeated_validation_refetches :
    (id_token_is_valid vNet "aaa.bbb.ccc" "api-audience" vAuthority none 10 ⟨0, 0⟩).1 =
        Except.ok (some vPayload) ∧
      (id_token_is_valid vNet "aaa.bbb.ccc" "api-audience" vAuthority none 10
          (id_token_is_valid vNet "aaa.bbb.ccc" "api-audience" vAuthority none 10
            ⟨0, 0⟩).2).1 =
        Except.ok (some vPayload) ∧
      (id_token_is_valid vNet "aaa.bbb.ccc" "api-audience" vAuthority none 10
          (id_token_is_valid vNet "aaa.bbb.ccc" "api-audience" vAuthority none 10
            ⟨0, 0⟩).2).2 =
        ⟨2, 2⟩ := by
  decide

/-- C4: a request carrying a token whose signature verifies under a key of
the served key set and whose `iss`, `aud`, `exp`, `nbf` and `iat` claims are
valid against the configured authority and audience yields an Allow decision
whose `principalId` and `context.username` both equal the token's `sub`
claim, with policy version `2012-10-17` and the single statement
`execute-api:Invoke` / `Allow` / the request's `methodArn`. -/
theorem valid_token_allows (event : Event) (env : Env) (net : NetEnv) (now : Int)
    (ctr : Counters) (v tok : String) (meta : List (String × String)) (uri : String)
    (t : TokenRepr) (k : Jwk) (s : String)
    (hv : dictGet event.headers "authorization" = some v)
    (htok : reMatchAuth v = some tok)
    (hcrypto : net.hasCrypto = true)
    (hresp : net.get (env.AUTHORITY.getD "" ++ "/.well-known/openid-configuration") =
      ⟨200, some meta⟩)
    (huri : meta.lookup "jwks_uri" = some uri)
    (hparse : net.parseToken tok = some t)
    (hfind : (net.jwksSet uri).find? (fun j => t.kid == some j.kid) = some k)
    (halg : t.alg = some "RS256")
    (hsig : net.sigOk k.key tok = true)
    (hiat : t.payload.iat.all (fun i => decide (i ≤ now)) = true)
    (hnbf : t.payload.nbf.all (fun n => decide (n ≤ now)) = true)
    (hexp : t.payload.exp.all (fun e => decide (now < e)) = true)
    (hiss : t.payload.iss = some (env.AUTHORITY.getD ""))
    (haud : t.payload.aud = some (env.AUDIENCE.getD ""))
    (hsub : t.payload.sub = some s) :
    lambda_handler event env net now ctr =
      (Except.ok
        ⟨s, ⟨"2012-10-17", [⟨"execute-api:Invoke", "Allow", event.methodArn⟩]⟩,
          some [("username", s)]⟩,
       ⟨ctr.discoveryFetches + 1, ctr.jwksFetches + 1⟩) := by
  have hne : ¬(tok = "") := reMatchAuth_ne_empty htok
  unfold lambda_handler get_id_token
  rw [hv]
  simp only [htok, if_neg hne,
    id_token_is_valid_resolved net tok (env.AUDIENCE.getD "") (env.AUTHORITY.getD "")
      env.SSL_CERT_FILE now ctr meta uri t k hcrypto hresp huri hparse hfind]
  simp only [jwtDecode, hparse, halg, List.mem_singleton, if_pos rfl, hsig, if_true,
    hiat, hnbf, hexp, hiss, haud, beq_self_eq_true, Bool.and_true, Bool.true_and]
  simp only [Claims.isEmptyDict, hiss, hsub, Option.isNone_some, Bool.false_and,
    Bool.and_false, if_false, Bool.false_eq_true, generate_policy]

/-- Witness for C4 on the fully valid concrete scenario. -/
theorem valid_token_allows_wit :
    lambda_handler vEvent vEnv vNet 10 ⟨0, 0⟩ =
      (Except.ok
        ⟨"user-123", ⟨"2012-10-17", [⟨"execute-api:Invoke", "Allow", "arn:resource"⟩]⟩,
          some [("username", "user-123")]⟩,
       ⟨1, 1⟩) :=
  valid_token_allows vEvent vEnv vNet 10 ⟨0, 0⟩ "Bearer aaa.bbb.ccc" "aaa.bbb.ccc"
    [("jwks_uri", vJwksUri)] vJwksUri vToken ⟨"kid-1", "key-1"⟩ "user-123"
    (by decide) (by decide) rfl rfl (by decide) (by decide) (by decide)
    (by decide) (by decide) (by decide) (by decide) (by decide) (by decide)
    (by decide) (by decide)

/-- C5: the spec claims a discovery response whose body is unparseable, or
parseable but lacking `jwks_uri`, converges to a Deny decision; in the code
`resp.json()` is evaluated outside the `try` block and
`oidc_metadata["jwks_uri"]` raises `KeyError`, which
`except jwt.exceptions.PyJWTError` does not catch, so both cases escape
`lambda_handler` as faults. -/
theorem discovery_metadata_parse_faults (event : Event) (env : Env) (net : NetEnv)
    (now : Int) (ctr : Counters) (v tok : String)
    (hv : dictGet event.headers "authorization" = some v)
    (htok : reMatchAuth v = some tok)
    (hcrypto : net.hasCrypto = true)
    (hbad : net.get (env.AUTHORITY.getD "" ++ "/.well-known/openid-configuration") =
        ⟨200, none⟩ ∨
      ∃ meta, net.get (env.AUTHORITY.getD "" ++ "/.well-known/openid-configuration") =
          ⟨200, some meta⟩ ∧ meta.lookup "jwks_uri" = none) :
    ∃ f, (lambda_handler event env net now ctr).1 = Except.error f := by
  have hne : ¬(tok = "") := reMatchAuth_ne_empty htok
  unfold lambda_handler get_id_token
  rw [hv]
  rcases hbad with hr | ⟨meta, hr, hl⟩
  · exact ⟨Fault.jsonDecodeError, by simp [htok, if_neg hne, id_token_is_valid, hcrypto, hr]⟩
  · exact ⟨Fault.keyError "jwks_uri",
      by simp [htok, if_neg hne, id_token_is_valid, hcrypto, hr, hl]⟩

/-- Witness for C5: the discovery endpoint answers 200 with a non-JSON body. -/
theorem discovery_metadata_parse_faults_wit :
    ∃ f, (lambda_handler vEvent vEnv badJsonNet 10 ⟨0, 0⟩).1 = Except.error f :=
  discovery_metadata_parse_faults vEvent vEnv badJsonNet 10 ⟨0, 0⟩
    "Bearer aaa.bbb.ccc" "aaa.bbb.ccc" (by decide) (by decide) rfl (Or.inl rfl)

/-- C6: when the discovery endpoint answers a status other than 200, the
handler returns the Deny policy (principal `username`, no context) for any
extracted token, and raises no fault — `id_token_is_valid` returns `False`
and `lambda_handler` builds the Deny decision. -/
theorem discovery_non_200_denies (event : Event) (env : Env) (net : NetEnv)
    (now : Int) (ctr : Counters) (v tok : String)
    (hv : dictGet event.headers "authorization" = some v)
    (htok : reMatchAuth v = some tok)
    (hstatus : (net.get (env.AUTHORITY.getD "" ++ "/.well-known/openid-configuration")).status_code ≠
      200) :
    (lambda_handler event env net now ctr).1 =
      Except.ok (generate_policy "Deny" event.methodArn "username") := by
  have hne : ¬(tok = "") := reMatchAuth_ne_empty htok
  unfold lambda_handler get_id_token
  rw [hv]
  cases hc : net.hasCrypto with
  | false => simp [htok, if_neg hne, id_token_is_valid, hc]
  | true => simp [htok, if_neg hne, id_token_is_valid, hc, if_pos hstatus]

/-- Witness for C6: the valid-world network queried for a different
authority, whose discovery URL answers 404. -/
theorem discovery_non_200_denies_wit :
    (lambda_handler vEvent otherEnv vNet 10 ⟨0, 0⟩).1 =
      Except.ok (generate_policy "Deny" "arn:resource" "username") :=
  discovery_non_200_denies vEvent otherEnv vNet 10 ⟨0, 0⟩ "Bearer aaa.bbb.ccc"
    "aaa.bbb.ccc" (by decide) (by decide) (by decide)

/-- C7: `jwt.decode` is called with `algorithms=["RS256"]`, so a token whose
header declares any other algorithm fails validation (PyJWT's
`InvalidAlgorithmError`, caught and turned into `False`) and the handler
returns the Deny policy, regardless of the signature. -/
theorem non_rs256_algorithm_denies (event : Event) (env : Env) (net : NetEnv)
    (now : Int) (ctr : Counters) (v tok : String) (meta : List (String × String))
    (uri : String) (t : TokenRepr) (k : Jwk) (a : String)
    (hv : dictGet event.headers "authorization" = some v)
    (htok : reMatchAuth v = some tok)
    (hcrypto : net.hasCrypto = true)
    (hresp : net.get (env.AUTHORITY.getD "" ++ "/.well-known/openid-configuration") =
      ⟨200, some meta⟩)
    (huri : meta.lookup "jwks_uri" = some uri)
    (hparse : net.parseToken tok = some t)
    (hfind : (net.jwksSet uri).find? (fun j => t.kid == some j.kid) = some k)
    (halg : t.alg = some a)
    (hne : a ≠ "RS256") :
    (lambda_handler event env net now ctr).1 =
      Except.ok (generate_policy "Deny" event.methodArn "username") := by
  have hne0 : ¬(tok = "") := reMatchAuth_ne_empty htok
  unfold lambda_handler get_id_token
  rw [hv]
  simp only [htok, if_neg hne0,
    id_token_is_valid_resolved net tok (env.AUDIENCE.getD "") (env.AUTHORITY.getD "")
      env.SSL_CERT_FILE now ctr meta uri t k hcrypto hresp huri hparse hfind]
  simp [jwtDecode, hparse, halg, hne]

/-- Witness for C7: the same world serving a token declaring `HS256`. -/
theorem non_rs256_algorithm_denies_wit :
    (lambda_handler vEvent vEnv hsNet 10 ⟨0, 0⟩).1 =
      Except.ok (generate_policy "Deny" "arn:resource" "username") :=
  non_rs256_algorithm_denies vEvent vEnv hsNet 10 ⟨0, 0⟩ "Bearer aaa.bbb.ccc"
    "aaa.bbb.ccc" [("jwks_uri", vJwksUri)] vJwksUri hsToken ⟨"kid-1", "key-1"⟩ "HS256"
    (by decide) (by decide) rfl rfl (by decide) (by decide) (by decide)
    (by decide) (by decide)

/-- Shape of the default-principal Deny policy. -/
theorem generate_policy_deny_shape (resource : String) :
    (generate_policy "Deny" resource "username").principalId = "username" ∧
      (generate_policy "Deny" resource "username").principalId ≠ "" ∧
      (generate_policy "Deny" resource "username").context = none := by
  refine ⟨rfl, ?_, rfl⟩
  intro hc
  exact absurd hc (by simp [generate_policy])

/-- C8: every Deny decision the handler returns — whichever upstream stage
failed and whatever the token carried — has the same non-empty placeholder
principal `username` and no context field, so denials are indistinguishable
and leak no claim data. -/
theorem deny_decisions_uniform (event : Event) (env : Env) (net : NetEnv)
    (now : Int) (ctr : Counters) (p : Policy) (ctr2 : Counters)
    (h : lambda_handler event env net now ctr = (Except.ok p, ctr2))
    (hdeny : ∃ st ∈ p.policyDocument.Statement, st.Effect = "Deny") :
    p.principalId = "username" ∧ p.principalId ≠ "" ∧ p.context = none := by
  unfold lambda_handler at h
  cases hg : get_id_token event with
  | error e => rw [hg] at h; simp at h
  | ok tok =>
    rw [hg] at h
    dsimp only [] at h
    by_cases he : tok = ""
    · rw [if_pos he] at h
      simp only [Prod.mk.injEq, Except.ok.injEq] at h
      rw [← h.1]
      exact generate_policy_deny_shape event.methodArn
    · rw [if_neg he] at h
      rcases hval : id_token_is_valid net tok (env.AUDIENCE.getD "") (env.AUTHORITY.getD "")
          env.SSL_CERT_FILE now ctr with ⟨r, ctrv⟩
      rw [hval] at h
      cases r with
      | error f => simp at h
      | ok ro =>
        cases ro with
        | none =>
          dsimp only [] at h
          simp only [Prod.mk.injEq, Except.ok.injEq] at h
          rw [← h.1]
          exact generate_policy_deny_shape event.methodArn
        | some d =>
          dsimp only [] at h
          by_cases hd : d.isEmptyDict
          · rw [if_pos hd] at h
            simp only [Prod.mk.injEq, Except.ok.injEq] at h
            rw [← h.1]
            exact generate_policy_deny_shape event.methodArn
          · rw [if_neg hd] at h
            cases hs : d.sub with
            | none => rw [hs] at h; simp at h
            | some s =>
              rw [hs] at h
              dsimp only [] at h
              simp only [Prod.mk.injEq, Except.ok.injEq] at h
              exfalso
              obtain ⟨st, hst, heff⟩ := hdeny
              rw [← h.1] at hst
              simp only [generate_policy, List.mem_singleton] at hst
              rw [hst] at heff
              exact absurd heff (by simp)

/-- Witness for C8: a concrete denial (crypto support absent, so validation
returns `False`) applied to the uniformity theorem. -/
theorem deny_decisions_uniform_wit :
    (generate_policy "Deny" "arn:resource" "username").principalId = "username" ∧
      (generate_policy "Deny" "arn:resource" "username").principalId ≠ "" ∧
      (generate_policy "Deny" "arn:resource" "username").context = none :=
  deny_decisions_uniform vEvent vEnv noCryptoNet 10 ⟨0, 0⟩
    (generate_policy "Deny" "arn:resource" "username") ⟨0, 0⟩ rfl
    ⟨⟨"execute-api:Invoke", "Deny", "arn:resource"⟩, by decide, rfl⟩

/-- C9: a token that passes signature and claim verification but whose
payload lacks `sub` makes the handler fault with a `KeyError` — the Allow
branch evaluates `jwt_data["sub"]` unguarded — so the caller receives
neither Allow nor Deny. -/
theorem missing_sub_claim_faults (event : Event) (env : Env) (net : NetEnv)
    (now : Int) (ctr : Counters) (v tok : String) (meta : List (String × String))
    (uri : String) (t : TokenRepr) (k : Jwk)
    (hv : dictGet event.headers "authorization" = some v)
    (htok : reMatchAuth v = some tok)
    (hcrypto : net.hasCrypto = true)
    (hresp : net.get (env.AUTHORITY.getD "" ++ "/.well-known/openid-configuration") =
      ⟨200, some meta⟩)
    (huri : meta.lookup "jwks_uri" = some uri)
    (hparse : net.parseToken tok = some t)
    (hfind : (net.jwksSet uri).find? (fun j => t.kid == some j.kid) = some k)
    (halg : t.alg = some "RS256")
    (hsig : net.sigOk k.key tok = true)
    (hiat : t.payload.iat.all (fun i => decide (i ≤ now)) = true)
    (hnbf : t.payload.nbf.all (fun n => decide (n ≤ now)) = true)
    (hexp : t.payload.exp.all (fun e => decide (now < e)) = true)
    (hiss : t.payload.iss = some (env.AUTHORITY.getD ""))
    (haud : t.payload.aud = some (env.AUDIENCE.getD ""))
    (hsub : t.payload.sub = none) :
    (lambda_handler event env net now ctr).1 = Except.error (Fault.keyError "sub") := by
  have hne : ¬(tok = "") := reMatchAuth_ne_empty htok
  unfold lambda_handler get_id_token
  rw [hv]
  simp only [htok, if_neg hne,
    id_token_is_valid_resolved net tok (env.AUDIENCE.getD "") (env.AUTHORITY.getD "")
      env.SSL_CERT_FILE now ctr meta uri t k hcrypto hresp huri hparse hfind]
  simp only [jwtDecode, hparse, halg, List.mem_singleton, if_pos rfl, hsig, if_true,
    hiat, hnbf, hexp, hiss, haud, beq_self_eq_true, Bool.and_true, Bool.true_and]
  simp only [Claims.isEmptyDict, hiss, hsub, Option.isNone_some, Bool.false_and,
    Bool.and_false, if_false, Bool.false_eq_true]

/-- Witness for C9: the valid world whose token payload has no `sub`. -/
theorem missing_sub_claim_faults_wit :
    (lambda_handler vEvent vEnv noSubNet 10 ⟨0, 0⟩).1 =
      Except.error (Fault.keyError "sub") :=
  missing_sub_claim_faults vEvent vEnv noSubNet 10 ⟨0, 0⟩ "Bearer aaa.bbb.ccc"
    "aaa.bbb.ccc" [("jwks_uri", vJwksUri)] vJwksUri noSubToken ⟨"kid-1", "key-1"⟩
    (by decide) (by decide) rfl rfl (by decide) (by decide) (by decide)
    (by decide) (by decide) (by decide) (by decide) (by decide) (by decide)
    (by decide) (by decide)

/-- C10: extraction is anchored only at the start of the header value —
an optionally `Bearer `-prefixed three-segment token followed by arbitrary
trailing characters (not extending the third segment) is accepted, and the
three leading segments are returned, rather than the value being rejected. -/
theorem extraction_keeps_leading_segments (event : Event)
    (s1 s2 s3 rest : List Char) (withBearer : Bool)
    (h1 : s1 ≠ []) (h1u : ∀ x ∈ s1, isUrlSafe x = true)
    (h2 : s2 ≠ []) (h2u : ∀ x ∈ s2, isUrlSafe x = true)
    (h3 : s3 ≠ []) (h3u : ∀ x ∈ s3, isUrlSafe x = true)
    (hrest : ∀ x, rest.head? = some x → isUrlSafe x = false)
    (hv : dictGet event.headers "authorization" =
      some (String.mk (cond withBearer ['B', 'e', 'a', 'r', 'e', 'r', ' '] [] ++
        (s1 ++ '.' :: (s2 ++ '.' :: (s3 ++ rest)))))) :
    get_id_token event = Except.ok (String.mk (s1 ++ '.' :: (s2 ++ '.' :: s3))) := by
  unfold get_id_token
  rw [hv]
  simp only [reMatchAuth, stringData_mk,
    reMatchAuthL_eq_of s1 s2 s3 rest withBearer h1 h1u h2 h2u h3 h3u hrest,
    Option.map_some']

/-- Witness for C10: `Bearer aaa.bbb.ccc.ddd` extracts to `aaa.bbb.ccc`. -/
theorem extraction_keeps_leading_segments_wit :
    get_id_token trailingEvent = Except.ok "aaa.bbb.ccc" :=
  extraction_keeps_leading_segments trailingEvent ['a', 'a', 'a'] ['b', 'b', 'b']
    ['c', 'c', 'c'] ['.', 'd', 'd', 'd'] true
    (by decide) (by decide) (by decide) (by decide) (by decide) (by decide)
    (isUrlSafe_head_dot ['d', 'd', 'd']) (by decide)

end OsmlAuthorizer
